import Mathlib

/-!
Shallow embedding of the guarded tool-dispatch core of the library-assistant
program (src/main.py).  Static data tables, the membership predicate, the
guardrail comparison and the three tool handlers are translated directly from
the source; the orchestration performed by the external agents SDK (tool
visibility filtering, the tool round-trip loop, duplicate-name registration)
is modelled from the specification, as marked on each such definition.
-/

namespace LibraryAssistant

/-- UserContext from src/main.py lines 12-14: a name and an optional
membership id. -/
structure UserContext where
  name : String
  member_id : Option String
deriving Repr, DecidableEq

/-- BOOK_DB from src/main.py lines 42-48: title to number of copies. -/
def BOOK_DB : List (String × Nat) :=
  [("Clean Code", 2),
   ("The Pragmatic Programmer", 0),
   ("Introduction to Algorithms", 3),
   ("Design Patterns", 1),
   ("Deep Learning", 4)]

/-- LIBRARY_TIMINGS from src/main.py lines 50-58: lowercase day name to the
configured hours string (copied byte-for-byte from the source). -/
def LIBRARY_TIMINGS : List (String × String) :=
  [("monday", "9:00 ‚Äì 19:00"),
   ("tuesday", "9:00 ‚Äì 19:00"),
   ("wednesday", "9:00 ‚Äì 19:00"),
   ("thursday", "9:00 ‚Äì 19:00"),
   ("friday", "9:00 ‚Äì 19:00"),
   ("saturday", "10:00 ‚Äì 16:00"),
   ("sunday", "10:00 ‚Äì 14:00")]

/-- VALID_MEMBERS from src/main.py line 60. -/
def VALID_MEMBERS : List String := ["M-1001", "M-2002", "M-3003"]

/-- ScopeVerdict from the data model: the binary classification of a message. -/
inductive ScopeVerdict
  | ALLOW
  | BLOCK
deriving Repr, DecidableEq

/-- Python str.strip with no argument, translated as removal of leading and
trailing whitespace characters from the character list of the string. -/
def pyStrip (s : String) : String :=
  String.mk
    (((s.data.dropWhile Char.isWhitespace).reverse.dropWhile
        Char.isWhitespace).reverse)

/-- Python str.upper, translated as character-wise uppercasing of the
character list of the string. -/
def pyUpper (s : String) : String :=
  String.mk (s.data.map Char.toUpper)

/-- library_input_guardrail from src/main.py lines 83-87, viewed as the verdict
computed from the guardrail model response: the response is stripped and
uppercased and compared to the exact token ALLOW; any other value raises the
refusal, i.e. is BLOCK. -/
def library_input_guardrail (final_output : String) : ScopeVerdict :=
  if pyUpper (pyStrip final_output) = "ALLOW" then .ALLOW else .BLOCK

/-- Refusal text raised by the guardrail, src/main.py line 87 (copied
byte-for-byte from the source). -/
def REFUSAL_MESSAGE : String :=
  "‚ùå This assistant only answers library-related questions."

/-- is_member_allowed from src/main.py lines 90-92: the context must carry a
member id that is truthy (non-empty) and belongs to VALID_MEMBERS. -/
def is_member_allowed (uc : UserContext) : Bool :=
  match uc.member_id with
  | none => false
  | some m => (m != "") && VALID_MEMBERS.contains m

/-- Result shape of search_book, src/main.py lines 95-100. -/
structure SearchResult where
  title : String
  in_catalog : Bool
deriving Repr, DecidableEq

/-- Result shape of check_availability, src/main.py lines 102-106; the note
field is present only for books outside the catalog. -/
structure AvailabilityResult where
  title : String
  available_copies : Nat
  note : Option String
deriving Repr, DecidableEq

/-- Result shape of get_library_timings, src/main.py lines 108-111. -/
structure TimingsResult where
  day : String
  hours : String
deriving Repr, DecidableEq

/-- search_book from src/main.py lines 95-100. -/
def search_book (_ctx : UserContext) (book_name : String) : SearchResult :=
  { title := book_name, in_catalog := (BOOK_DB.lookup book_name).isSome }

/-- check_availability from src/main.py lines 102-106. -/
def check_availability (_ctx : UserContext) (book_name : String) :
    AvailabilityResult :=
  match BOOK_DB.lookup book_name with
  | none => { title := book_name, available_copies := 0,
              note := some "Not in catalog." }
  | some n => { title := book_name, available_copies := n, note := none }

/-- Python str.lower, translated as character-wise lowercasing of the
character list of the string. -/
def pyLower (s : String) : String :=
  String.mk (s.data.map Char.toLower)

/-- get_library_timings from src/main.py lines 108-111: the day argument is
lowercased before the schedule lookup. -/
def get_library_timings (_ctx : UserContext) (day : String) : TimingsResult :=
  { day := day,
    hours := (LIBRARY_TIMINGS.lookup (pyLower day)).getD "Unknown day." }

/-- Identifiers for the three tools registered on the agent,
src/main.py line 127. -/
inductive ToolId
  | searchBook
  | checkAvailability
  | getLibraryTimings
deriving Repr, DecidableEq

/-- Tool names as exposed to the completion service (the Python function
names, src/main.py lines 95-111). -/
def toolName : ToolId → String
  | .searchBook => "search_book"
  | .checkAvailability => "check_availability"
  | .getLibraryTimings => "get_library_timings"

/-- Visibility predicates: check_availability is declared with
is_enabled gating on is_member_allowed (src/main.py line 102); the other two
tools use the default, always-enabled predicate. -/
def is_enabled : ToolId → UserContext → Bool
  | .searchBook, _ => true
  | .checkAvailability, ctx => is_member_allowed ctx
  | .getLibraryTimings, _ => true

/-- Registration order of the tools on the agent, src/main.py line 127. -/
def registeredTools : List ToolId :=
  [.searchBook, .checkAvailability, .getLibraryTimings]

/-- Modelled from the spec: resolveVisibleTools of the Capability Registry
(spec section 4.2) — the per-request filtering of tools by their visibility
predicates is performed by the external agents SDK and is not under src/;
faithful to the spec, it keeps exactly the registered tools whose predicate
holds on the authorization context. -/
def resolveVisibleTools (ctx : UserContext) : List ToolId :=
  registeredTools.filter (fun t => is_enabled t ctx)

/-- Transient result of one tool invocation (the structured payload fed back
to the completion service). -/
inductive ToolResult
  | search (r : SearchResult)
  | availability (r : AvailabilityResult)
  | timings (r : TimingsResult)
deriving Repr, DecidableEq

/-- Execution of a tool handler with the context and a single string
argument (each source handler takes exactly one string argument). -/
def runTool (t : ToolId) (ctx : UserContext) (arg : String) : ToolResult :=
  match t with
  | .searchBook => .search (search_book ctx arg)
  | .checkAvailability => .availability (check_availability ctx arg)
  | .getLibraryTimings => .timings (get_library_timings ctx arg)

/-- Outcome of attempting to invoke a tool by name. -/
inductive InvokeOutcome
  | executed (r : ToolResult)
  | toolNotVisible
deriving Repr, DecidableEq

/-- Modelled from the spec: name-based tool invocation of the Dispatch Core
(spec section 4.4 step 3) — the SDK validates a requested tool name against
the visible subset and refuses hidden tools with a ToolNotVisible error token
instead of executing them. -/
def invokeToolByName (ctx : UserContext) (name arg : String) : InvokeOutcome :=
  match (resolveVisibleTools ctx).find? (fun t => toolName t == name) with
  | none => .toolNotVisible
  | some t => .executed (runTool t ctx arg)

/-- Response shape of the completion service boundary (spec section 6): plain
text plus an optional tool call of name and argument. -/
structure CompletionResponse where
  text : String
  toolCall : Option (String × String)

/-- Modelled from the spec: the recommended bound on tool round-trips
(spec section 4.4 step 3, a small constant, e.g. 8). -/
def MAX_TOOL_ROUNDS : Nat := 8

/-- TurnResult of the dispatch core together with its failure modes. -/
inductive TurnResult
  | ok (finalText : String)
  | scopeRejected
  | toolLoopExceeded
deriving Repr, DecidableEq

/-- Modelled from the spec: the bounded tool round-trip loop of the Dispatch
Core (spec section 4.4) — the loop executed by the external agents SDK is not
under src/.  The completion service is an oracle giving the response of each
round; the function returns the turn result together with the list of tools
actually executed.  A hidden tool name yields ToolNotVisible back into the
conversation and the loop continues; when the fuel (the configured bound) is
exhausted the turn fails with toolLoopExceeded. -/
def dispatchRounds (ctx : UserContext) (service : Nat → CompletionResponse) :
    Nat → Nat → TurnResult × List ToolId
  | _, 0 => (.toolLoopExceeded, [])
  | round, fuel + 1 =>
    match (service round).toolCall with
    | none => (.ok (service round).text, [])
    | some (name, _arg) =>
      match (resolveVisibleTools ctx).find? (fun t => toolName t == name) with
      | none => dispatchRounds ctx service (round + 1) fuel
      | some t =>
        let next := dispatchRounds ctx service (round + 1) fuel
        (next.1, t :: next.2)

/-- Modelled from the spec: fail-closed classification (spec section 4.1) — a
classifier error (ClassificationUnavailable) is treated as BLOCK; a response
string is compared by library_input_guardrail, translated from src/main.py
lines 83-87. -/
def classifierVerdict : Except Unit String → ScopeVerdict
  | .error _ => .BLOCK
  | .ok s => library_input_guardrail s

/-- Modelled from the spec: handleTurn of the Dispatch Core (spec section
4.4) — classification completes first; on BLOCK (or classifier error) only
the refusal path executes and the service is never consulted; on ALLOW the
bounded dispatch loop runs. -/
def handleTurn (classifierResult : Except Unit String) (ctx : UserContext)
    (service : Nat → CompletionResponse) : TurnResult × List ToolId :=
  match classifierVerdict classifierResult with
  | .BLOCK => (.scopeRejected, [])
  | .ALLOW => dispatchRounds ctx service 0 MAX_TOOL_ROUNDS

/-- Surfacing of a turn result by the session driver, src/main.py lines
156-170: a successful turn prints its final output, and the refusal raised by
the guardrail is caught and printed with the fixed error prefix of line 170
(copied byte-for-byte), so the caller sees a fixed refusal message. -/
def surfaceTurn : TurnResult → String
  | .ok t => t
  | .scopeRejected => "‚ö†Ô∏è Error: " ++ REFUSAL_MESSAGE
  | .toolLoopExceeded => "‚ö†Ô∏è Error: ToolLoopExceeded"

/-- Startup registration failure mode (spec section 7). -/
inductive RegistrationError
  | duplicateToolName
deriving Repr, DecidableEq

/-- Modelled from the spec: registration contract of the Capability Registry
(spec section 4.2) — tool names are unique; registering a duplicate name
fails with DuplicateToolName at startup.  The registry construction is
performed by the external agents SDK and is not under src/. -/
def registerTool (reg : List String) (name : String) :
    Except RegistrationError (List String) :=
  if name ∈ reg then .error .duplicateToolName else .ok (reg ++ [name])

/-- Modelled from the spec: building the registry once at startup by
registering every declared tool in order; the first duplicate aborts
initialization. -/
def registerAll (reg : List String) : List String →
    Except RegistrationError (List String)
  | [] => .ok reg
  | n :: rest =>
    match registerTool reg n with
    | .error e => .error e
    | .ok reg2 => registerAll reg2 rest

/-- Example service that always requests one further tool invocation. -/
def alwaysToolService : Nat → CompletionResponse :=
  fun _ => { text := "", toolCall := some ("search_book", "Clean Code") }

/-- Example service that immediately answers in plain text. -/
def plainTextService : Nat → CompletionResponse :=
  fun _ => { text := "done", toolCall := none }

/-- Helper: the membership predicate of src/main.py lines 90-92 holds exactly
when the context carries a member id belonging to VALID_MEMBERS (a member of
the valid set is necessarily non-empty, so the truthiness test of the source
adds nothing). -/
theorem is_member_allowed_iff (ctx : UserContext) :
    is_member_allowed ctx = true ↔
      ∃ m, ctx.member_id = some m ∧ m ∈ VALID_MEMBERS := by
  unfold is_member_allowed
  cases h : ctx.member_id with
  | none => simp
  | some m =>
    simp only [h, Option.some.injEq, Bool.and_eq_true, bne_iff_ne, ne_eq,
      List.elem_iff]
    constructor
    · rintro ⟨-, hmem⟩
      exact ⟨m, rfl, hmem⟩
    · rintro ⟨m2, hm2, hmem⟩
      cases hm2
      refine ⟨?_, hmem⟩
      rintro rfl
      simp [VALID_MEMBERS] at hmem

/-- Helper: membership of the gated tool in the visible subset is governed by
is_member_allowed. -/
theorem checkAvailability_visible_iff (ctx : UserContext) :
    ToolId.checkAvailability ∈ resolveVisibleTools ctx ↔
      is_member_allowed ctx = true := by
  simp [resolveVisibleTools, registeredTools, List.mem_filter, is_enabled]

/-- C1: the gated tool check_availability is visible iff the context's member
id is present and belongs to VALID_MEMBERS; invoking it by name executes it
exactly when the membership predicate holds and otherwise yields
ToolNotVisible, never execution. -/
theorem c1_gated_tool_visibility (ctx : UserContext) (arg : String) :
    (ToolId.checkAvailability ∈ resolveVisibleTools ctx ↔
      ∃ m, ctx.member_id = some m ∧ m ∈ VALID_MEMBERS)
    ∧ invokeToolByName ctx "check_availability" arg =
        (if is_member_allowed ctx then
          InvokeOutcome.executed (ToolResult.availability
            (check_availability ctx arg))
        else InvokeOutcome.toolNotVisible) := by
  refine ⟨(checkAvailability_visible_iff ctx).trans (is_member_allowed_iff ctx), ?_⟩
  cases hm : is_member_allowed ctx <;>
    simp [invokeToolByName, resolveVisibleTools, registeredTools, is_enabled,
      hm, toolName, runTool]

/-- C2: the scope classifier trims and uppercases the service response before
comparison; the verdict is ALLOW exactly when the normalized response is the
token ALLOW, and every other response yields BLOCK. -/
theorem c2_fail_closed_classifier (s : String) :
    (library_input_guardrail s = .ALLOW ↔ pyUpper (pyStrip s) = "ALLOW")
    ∧ (pyUpper (pyStrip s) ≠ "ALLOW" → library_input_guardrail s = .BLOCK) := by
  unfold library_input_guardrail
  constructor
  · split <;> simp_all
  · intro h
    simp [h]

/-- Witness for C2 at the concrete response string with stray whitespace and
lowercase: its normalized form is DENY, so the verdict is BLOCK. -/
theorem c2_witness : library_input_guardrail "  deny  " = .BLOCK :=
  (c2_fail_closed_classifier "  deny  ").2 (by decide)

/-- C3: whenever the classifier returns BLOCK or errors, handling the turn
executes no tool, never consults the completion service (the result is
independent of the service oracle), and surfaces the fixed refusal message. -/
theorem c3_block_short_circuit (cr : Except Unit String) (ctx : UserContext)
    (service otherService : Nat → CompletionResponse)
    (h : classifierVerdict cr = .BLOCK) :
    handleTurn cr ctx service = (.scopeRejected, [])
    ∧ handleTurn cr ctx service = handleTurn cr ctx otherService
    ∧ surfaceTurn (handleTurn cr ctx service).1 =
        "‚ö†Ô∏è Error: " ++ REFUSAL_MESSAGE := by
  simp [handleTurn, h, surfaceTurn]

/-- Witness for C3 at the out-of-scope classifier response BLOCK, the guest
context of src/main.py line 153, and two distinct service oracles. -/
theorem c3_witness :
    handleTurn (.ok "BLOCK") ⟨"Omer", some "None"⟩ alwaysToolService =
      (.scopeRejected, [])
    ∧ handleTurn (.ok "BLOCK") ⟨"Omer", some "None"⟩ alwaysToolService =
        handleTurn (.ok "BLOCK") ⟨"Omer", some "None"⟩ plainTextService
    ∧ surfaceTurn
        (handleTurn (.ok "BLOCK") ⟨"Omer", some "None"⟩ alwaysToolService).1 =
        "‚ö†Ô∏è Error: " ++ REFUSAL_MESSAGE :=
  c3_block_short_circuit (.ok "BLOCK") ⟨"Omer", some "None"⟩
    alwaysToolService plainTextService (by decide)

/-- Helper: a completion service that requests a tool on every round drives
the dispatch loop to exhaust any amount of fuel and fail with
toolLoopExceeded. -/
theorem dispatchRounds_all_tool_calls (ctx : UserContext)
    (service : Nat → CompletionResponse)
    (htool : ∀ n, (service n).toolCall ≠ none) :
    ∀ fuel round, (dispatchRounds ctx service round fuel).1 =
      .toolLoopExceeded := by
  intro fuel
  induction fuel with
  | zero => intro round; rfl
  | succ k ih =>
    intro round
    unfold dispatchRounds
    cases hc : (service round).toolCall with
    | none => exact absurd hc (htool round)
    | some p =>
      obtain ⟨name, arg⟩ := p
      cases hf : (resolveVisibleTools ctx).find? (fun t => toolName t == name) with
      | none => simpa [hf] using ih (round + 1)
      | some t => simpa [hf] using ih (round + 1)

/-- C4: against a completion service that requests a further tool invocation
on every round-trip, an allowed turn fails with toolLoopExceeded once the
configured bound of tool round-trips is exhausted (the loop is fuel-bounded
by construction, so an infinite loop is impossible). -/
theorem c4_loop_bound (cr : Except Unit String) (ctx : UserContext)
    (service : Nat → CompletionResponse)
    (hallow : classifierVerdict cr = .ALLOW)
    (htool : ∀ n, (service n).toolCall ≠ none) :
    (handleTurn cr ctx service).1 = .toolLoopExceeded := by
  simp only [handleTurn, hallow]
  exact dispatchRounds_all_tool_calls ctx service htool MAX_TOOL_ROUNDS 0

/-- Witness for C4 at the classifier response ALLOW, the guest context of
src/main.py line 153, and the service that always requests search_book. -/
theorem c4_witness :
    (handleTurn (.ok "ALLOW") ⟨"Omer", some "None"⟩ alwaysToolService).1 =
      .toolLoopExceeded :=
  c4_loop_bound (.ok "ALLOW") ⟨"Omer", some "None"⟩ alwaysToolService
    (by decide) (fun n => by simp [alwaysToolService])

/-- C5: a member id that is present but outside VALID_MEMBERS (such as the
literal string None used in src/main.py line 153) fails the membership
predicate, yields exactly the tool visibility of a context with no
membership, and that visibility is the guest-level pair of ungated tools;
the functions involved are total, so no error is raised. -/
theorem c5_invalid_membership_guest (name m : String)
    (hm : m ∉ VALID_MEMBERS) :
    is_member_allowed ⟨name, some m⟩ = false
    ∧ resolveVisibleTools ⟨name, some m⟩ = resolveVisibleTools ⟨name, none⟩
    ∧ resolveVisibleTools ⟨name, some m⟩ =
        [.searchBook, .getLibraryTimings] := by
  have hfalse : is_member_allowed ⟨name, some m⟩ = false := by
    have : ¬ is_member_allowed ⟨name, some m⟩ = true := by
      rw [is_member_allowed_iff]
      rintro ⟨m2, hm2, hmem⟩
      cases hm2
      exact hm hmem
    simpa using this
  have hnone : is_member_allowed ⟨name, none⟩ = false := rfl
  refine ⟨hfalse, ?_, ?_⟩ <;>
    simp [resolveVisibleTools, registeredTools, is_enabled, hfalse, hnone,
      List.filter]

/-- Witness for C5 at the exact context constructed in src/main.py line 153:
name Omer with the sentinel member id None. -/
theorem c5_witness :
    is_member_allowed ⟨"Omer", some "None"⟩ = false
    ∧ resolveVisibleTools ⟨"Omer", some "None"⟩ =
        resolveVisibleTools ⟨"Omer", none⟩
    ∧ resolveVisibleTools ⟨"Omer", some "None"⟩ =
        [.searchBook, .getLibraryTimings] :=
  c5_invalid_membership_guest "Omer" "None" (by decide)

/-- C6: registering the three declared tools in their source order succeeds
with three pairwise distinct names, and registering any name already present
in the registry fails with DuplicateToolName. -/
theorem c6_unique_tool_names :
    registerAll [] (registeredTools.map toolName) =
      .ok ["search_book", "check_availability", "get_library_timings"]
    ∧ (∀ (reg : List String) (n : String), n ∈ reg →
        registerTool reg n = .error .duplicateToolName) := by
  constructor
  · rfl
  · intro reg n h
    simp [registerTool, h]

/-- Witness for C6: registering search_book a second time fails with
DuplicateToolName. -/
theorem c6_witness :
    registerTool ["search_book"] "search_book" =
      .error .duplicateToolName :=
  c6_unique_tool_names.2 ["search_book"] "search_book" (by decide)

/-- C7: the search_book and get_library_timings tools carry the
always-true visibility predicate, so both are visible in every authorization
context, membership or not. -/
theorem c7_unrestricted_tools (ctx : UserContext) :
    is_enabled .searchBook ctx = true
    ∧ is_enabled .getLibraryTimings ctx = true
    ∧ ToolId.searchBook ∈ resolveVisibleTools ctx
    ∧ ToolId.getLibraryTimings ∈ resolveVisibleTools ctx := by
  refine ⟨rfl, rfl, ?_, ?_⟩ <;>
    simp [resolveVisibleTools, registeredTools, List.mem_filter, is_enabled]

/-- C8: for the mixed-case argument Sunday, in every context, the timings
tool lowercases the day and returns the configured sunday hours string of
the schedule table. -/
theorem c8_sunday_timings (ctx : UserContext) :
    get_library_timings ctx "Sunday" =
      { day := "Sunday", hours := "10:00 ‚Äì 14:00" }
    ∧ pyLower "Sunday" = "sunday" := by
  constructor
  · simp [get_library_timings]
    decide
  · decide

/-- C9: every query tool is deterministic and idempotent — two invocations of
the same handler (directly or through name-based dispatch) with identical
arguments and identical context produce equal results; the handlers are pure
lookups of the immutable catalog and schedule tables, so this holds by
construction. -/
theorem c9_tools_deterministic (ctx : UserContext)
    (book day arg tname : String) :
    search_book ctx book = search_book ctx book
    ∧ check_availability ctx book = check_availability ctx book
    ∧ get_library_timings ctx day = get_library_timings ctx day
    ∧ invokeToolByName ctx tname arg = invokeToolByName ctx tname arg :=
  ⟨rfl, rfl, rfl, rfl⟩

/-- C10: for every book name outside the catalog and every context,
check_availability returns the structured not-in-catalog result with zero
copies instead of raising; the handler is total over all strings. -/
theorem c10_unknown_book_total (ctx : UserContext) (book_name : String)
    (h : BOOK_DB.lookup book_name = none) :
    check_availability ctx book_name =
      { title := book_name, available_copies := 0,
        note := some "Not in catalog." } := by
  unfold check_availability
  rw [h]

/-- Witness for C10 at a concrete book name absent from BOOK_DB. -/
theorem c10_witness :
    check_availability ⟨"Omer", none⟩ "Harry Potter" =
      { title := "Harry Potter", available_copies := 0,
        note := some "Not in catalog." } :=
  c10_unknown_book_total ⟨"Omer", none⟩ "Harry Potter" (by decide)

end LibraryAssistant
